import Mathlib

/-!
Verification of the cancer-prediction backend's core pipeline: the synthetic
dataset generator's label cascade, the feature encoder (label encoding plus
standard scaling), the prediction result construction, and the fallback
doctor-explanation formatter.  Machine floats are modelled as exact rationals,
pandas rows as records, and the numpy random draws as opaque function
parameters keyed by the seed; sklearn's `LabelEncoder` and `StandardScaler`
are modelled from their documented semantics (sorted unique classes with
index encoding; per-column subtract-mean/divide-by-scale).
-/

set_option autoImplicit false

namespace CancerBackend

/-- One row of the synthetic training table of
`simple_cancer_predictor.generate_dummy_data`: the per-column draws, before
the label is assigned.  Numeric columns are rationals, categorical columns
strings, 0/1 flags rationals as in the DataFrame. -/
structure Patient where
  age : ℚ
  gender : String
  bmi : ℚ
  smoking_status : String
  family_history : ℚ
  blood_pressure : ℚ
  cholesterol : ℚ
  glucose : ℚ
  white_blood_cells : ℚ
  platelet_count : ℚ
  hemoglobin : ℚ
  symptom_count : ℚ
  fatigue_level : ℚ
  pain_level : ℚ
  weight_loss : ℚ
  night_sweats : ℚ
  appetite_loss : ℚ
  deriving DecidableEq, Repr

/-- The fixed closed set of cancer types of `simple_cancer_predictor.py`
line 39. -/
def cancer_types : List String :=
  ["Breast", "Lung", "Colon", "Prostate", "Melanoma", "Leukemia", "Ovarian", "Pancreatic"]

/-- The label cascade of `generate_dummy_data`
(`simple_cancer_predictor.py` lines 66-82): an ordered if/elif chain, first
matching rule wins, final catch-all `Melanoma`. -/
def assignLabel (p : Patient) : String :=
  if p.gender = "Female" ∧ p.age > 50 then "Breast"
  else if (p.smoking_status = "Current" ∨ p.smoking_status = "Former") ∧ p.age > 60 then "Lung"
  else if p.age > 70 ∧ p.family_history = 1 then "Colon"
  else if p.gender = "Male" ∧ p.age > 60 then "Prostate"
  else if p.symptom_count > 4 ∧ p.fatigue_level > 3 then "Leukemia"
  else if p.gender = "Female" ∧ p.age > 45 then "Ovarian"
  else if p.weight_loss = 1 ∧ p.appetite_loss = 1 then "Pancreatic"
  else "Melanoma"

/-- One row of the synthetic table of
`cancer_prediction.CancerPredictor.generate_synthetic_cancer_data`,
restricted to the columns its label cascade reads. -/
structure PatientCP where
  age : ℚ
  gender : String
  smoking_history : String
  ca125 : ℚ
  cea : ℚ
  psa : ℚ
  afp : ℚ
  deriving DecidableEq, Repr

/-- The fixed closed set of cancer types of `cancer_prediction.py` line 32. -/
def cancer_types_cp : List String :=
  ["Breast", "Lung", "Colon", "Prostate", "Melanoma", "Leukemia"]

/-- The label cascade of `generate_synthetic_cancer_data`
(`cancer_prediction.py` lines 63-75): its first rule keys on `ca125 > 25`,
not on age; final catch-all `Leukemia`. -/
def assignLabelCP (p : PatientCP) : String :=
  if p.gender = "Female" ∧ p.ca125 > 25 then "Breast"
  else if (p.smoking_history = "Current" ∨ p.smoking_history = "Former") ∧ p.age > 60 then "Lung"
  else if p.age > 70 ∧ p.cea > 4 then "Colon"
  else if p.gender = "Male" ∧ p.psa > 6 then "Prostate"
  else if p.afp > 15 then "Melanoma"
  else "Leukemia"

/-! ### Label encoder (sklearn `LabelEncoder`, modelled from its documented
semantics: `classes_` is the sorted list of distinct observed values,
`transform` maps a value to its index in `classes_` and raises on an unseen
value, `fit_transform` returns the indices of the column's own values). -/

/-- Insert a string into a sorted duplicate-free list, keeping it sorted and
duplicate-free. -/
def insertSortedNoDup (a : String) : List String → List String
  | [] => [a]
  | b :: t =>
    if a = b then b :: t
    else if a < b then a :: b :: t
    else b :: insertSortedNoDup a t

/-- `LabelEncoder.fit`: the sorted distinct values of a column
(`np.unique`). -/
def le_fit (xs : List String) : List String := xs.foldr insertSortedNoDup []

/-- `LabelEncoder.transform` on a single value: its index in the fitted
classes; an unseen value raises (the spec's `UnknownCategory` error,
sklearn's `ValueError: y contains previously unseen labels`). -/
def le_transform (classes : List String) (v : String) : Except String Nat :=
  if v ∈ classes then .ok (classes.indexOf v) else .error "UnknownCategory"

/-- `LabelEncoder.fit_transform` on a column: each value's index in the
sorted distinct values (`np.unique` with `return_inverse`). -/
def le_fit_transform (xs : List String) : List Nat :=
  xs.map (fun v => (le_fit xs).indexOf v)

theorem mem_insertSortedNoDup (x a : String) (l : List String) :
    x ∈ insertSortedNoDup a l ↔ x = a ∨ x ∈ l := by
  induction l with
  | nil => simp [insertSortedNoDup]
  | cons b t ih =>
    simp only [insertSortedNoDup]
    split
    · rename_i hab
      subst hab
      simp only [List.mem_cons]
      tauto
    · split
      · simp [List.mem_cons]
      · simp only [List.mem_cons, ih]
        tauto


theorem mem_le_fit (x : String) (xs : List String) : x ∈ le_fit xs ↔ x ∈ xs := by
  induction xs with
  | nil => simp [le_fit]
  | cons b t ih =>
    simp only [le_fit, List.foldr_cons, mem_insertSortedNoDup, List.mem_cons]
    rw [le_fit] at ih
    rw [ih]

theorem le_transform_of_mem {classes : List String} {v : String} (h : v ∈ classes) :
    le_transform classes v = .ok (classes.indexOf v) := by
  simp [le_transform, h]

theorem le_transform_of_not_mem {classes : List String} {v : String} (h : v ∉ classes) :
    le_transform classes v = .error "UnknownCategory" := by
  simp [le_transform, h]

/-- The first fitted class encodes to `0`. -/
theorem le_transform_head (c : String) (cs : List String) :
    le_transform (c :: cs) c = .ok 0 := by
  simp [le_transform, List.indexOf_cons_self]

/-! ### Claims about the label cascades -/

/-- C4: every generated row is assigned exactly one label (the cascades are
total functions) drawn from the fixed closed set of cancer-type strings; the
ordered if/elif chain ends in a catch-all branch, so no row is unlabeled. -/
theorem cascade_total_label_in_fixed_set (p : Patient) (q : PatientCP) :
    assignLabel p ∈ cancer_types ∧ assignLabelCP q ∈ cancer_types_cp := by
  constructor
  · unfold assignLabel
    split_ifs <;> simp [cancer_types]
  · unfold assignLabelCP
    split_ifs <;> simp [cancer_types_cp]

/-- A generated row of `generate_synthetic_cancer_data` with gender Female,
age 75, low ca125, current smoker. -/
def rowFemale75CP : PatientCP :=
  ⟨75, "Female", "Current", 10, 2, 3, 8⟩

/-- C3 counterexample: a Female row of age 75 (> 70) is labeled `Lung`, not
`Breast`, by `generate_synthetic_cancer_data`'s cascade, whose first rule
keys on `ca125 > 25` rather than on age. -/
theorem female_over70_not_breast_in_cp_cascade :
    rowFemale75CP.gender = "Female" ∧ rowFemale75CP.age > 70 ∧
    assignLabelCP rowFemale75CP = "Lung" ∧ ("Lung" : String) ≠ "Breast" := by
  refine ⟨rfl, by norm_num [rowFemale75CP], by decide, by decide⟩

/-- C3 amended: in `generate_dummy_data`'s cascade every Female row with age
above 70 is labeled `Breast` (its first rule is Female-and-age > 50); in
`generate_synthetic_cancer_data`'s cascade the first rule is
Female-and-ca125 > 25, so there it is Female rows with ca125 above 25 that
are always labeled `Breast`. -/
theorem female_over70_breast_simple_cascade (p : Patient) (q : PatientCP)
    (hp : p.gender = "Female") (ha : p.age > 70)
    (hq : q.gender = "Female") (hc : q.ca125 > 25) :
    assignLabel p = "Breast" ∧ assignLabelCP q = "Breast" := by
  constructor
  · have h50 : p.age > 50 := lt_trans (by norm_num) ha
    simp [assignLabel, hp, h50]
  · simp [assignLabelCP, hq, hc]

/-- A Female row of age 72 for `generate_dummy_data`. -/
def rowBreast : Patient :=
  ⟨72, "Female", 25, "Never", 0, 120, 200, 100, 7, 250, 14, 2, 1, 1, 0, 0, 0⟩

/-- A Female row with ca125 = 30 for `generate_synthetic_cancer_data`. -/
def rowBreastCP : PatientCP :=
  ⟨72, "Female", "Never", 30, 2, 3, 8⟩

/-- Witness for the amended C3 at concrete rows. -/
theorem female_over70_breast_witness :
    rowBreast.gender = "Female" ∧ rowBreast.age > 70 ∧ rowBreastCP.ca125 > 25 ∧
    assignLabel rowBreast = "Breast" ∧ assignLabelCP rowBreastCP = "Breast" := by
  have h := female_over70_breast_simple_cascade rowBreast rowBreastCP rfl
    (by norm_num [rowBreast]) rfl (by norm_num [rowBreastCP])
  exact ⟨rfl, by norm_num [rowBreast], by norm_num [rowBreastCP], h.1, h.2⟩

/-- C10: the `Ovarian` rule (Female and age > 45) sits after the `Breast`
rule (Female and age > 50) in `generate_dummy_data`'s cascade, so every row
it labels `Ovarian` is Female with age in (45, 50]. -/
theorem ovarian_shadowed_by_breast (p : Patient) (h : assignLabel p = "Ovarian") :
    p.gender = "Female" ∧ 45 < p.age ∧ p.age ≤ 50 := by
  unfold assignLabel at h
  split_ifs at h with h1 h2 h3 h4 h5 h6 h7
  · exact absurd h (by decide)
  · exact absurd h (by decide)
  · exact absurd h (by decide)
  · exact absurd h (by decide)
  · exact absurd h (by decide)
  · refine ⟨h6.1, h6.2, ?_⟩
    by_contra hgt
    push_neg at hgt
    exact h1 ⟨h6.1, hgt⟩
  · exact absurd h (by decide)
  · exact absurd h (by decide)

/-- A row the simple cascade labels `Ovarian`: Female, age 48. -/
def rowOvarian : Patient :=
  ⟨48, "Female", 25, "Never", 0, 120, 200, 100, 7, 250, 14, 2, 1, 1, 0, 0, 0⟩

/-- Witness for C10 at a concrete `Ovarian`-labeled row. -/
theorem ovarian_shadowed_witness :
    assignLabel rowOvarian = "Ovarian" ∧
    (rowOvarian.gender = "Female" ∧ 45 < rowOvarian.age ∧ rowOvarian.age ≤ 50) :=
  ⟨by decide, ovarian_shadowed_by_breast rowOvarian (by decide)⟩

/-! ### Standard scaler and prediction pipeline of `predict_cancer_type`
(`simple_cancer_predictor.py`).  The scaler is sklearn's `StandardScaler`
modelled from the spec's words: per-column mean and scale, transform is
subtract-mean/divide-by-scale; the irrational square root in the scale is
abstracted as a function parameter `sqrtQ`.  The `train_test_split` shuffle
and the random forest's `predict_proba` are deterministic for their fixed
`random_state=42`, so they are abstracted as function parameters. -/

/-- Python's binary `max`. -/
def qmax (a b : ℚ) : ℚ := if a ≤ b then b else a

/-- Python's `max` over a list (line 173, `max(probabilities)`). -/
def listMax (l : List ℚ) : ℚ := l.foldl qmax (l.headD 0)

/-- First index of a value in a list of rationals (length if absent). -/
def idxOfQ (a : ℚ) : List ℚ → Nat
  | [] => 0
  | x :: t => if x = a then 0 else idxOfQ a t + 1

/-- `np.argmax`: first index attaining the maximum. -/
def argmaxIdx (l : List ℚ) : Nat := idxOfQ (listMax l) l

/-- Sum of a list of rationals. -/
def qsum (l : List ℚ) : ℚ := l.foldl (· + ·) 0

/-- Column mean. -/
def colMean (col : List ℚ) : ℚ := qsum col / col.length

/-- Column variance (population variance, as `StandardScaler` uses). -/
def colVar (col : List ℚ) : ℚ :=
  qsum (col.map (fun x => (x - colMean col) * (x - colMean col))) / col.length

/-- `StandardScaler.fit`: per-column `(mean, scale)` over the rows it is
fitted on; `scale` is the square root of the variance, taken through the
abstract `sqrtQ`. -/
def scaler_fit (sqrtQ : ℚ → ℚ) (rows : List (List ℚ)) : List (ℚ × ℚ) :=
  rows.transpose.map (fun col => (colMean col, sqrtQ (colVar col)))

/-- `StandardScaler.transform` of a single row with fitted parameters. -/
def scaler_transform (params : List (ℚ × ℚ)) (row : List ℚ) : List ℚ :=
  (row.zip params).map (fun xp => (xp.1 - xp.2.1) / xp.2.2)

/-- The `patient_data` dict of `predict_cancer_type`: every column may be
missing (`none`). -/
structure PatientData where
  age : Option ℚ
  bmi : Option ℚ
  family_history : Option ℚ
  blood_pressure : Option ℚ
  cholesterol : Option ℚ
  glucose : Option ℚ
  white_blood_cells : Option ℚ
  platelet_count : Option ℚ
  hemoglobin : Option ℚ
  symptom_count : Option ℚ
  fatigue_level : Option ℚ
  pain_level : Option ℚ
  weight_loss : Option ℚ
  night_sweats : Option ℚ
  appetite_loss : Option ℚ
  gender : Option String
  smoking_status : Option String
  deriving DecidableEq, Repr

/-- A request with every column missing. -/
def emptyPatient : PatientData :=
  ⟨none, none, none, none, none, none, none, none, none, none, none, none,
   none, none, none, none, none⟩

/-- Lines 137-149: the numeric feature vector in `feature_columns` order,
missing entries filled from the `defaults` dict. -/
def buildNumericFeatures (pd : PatientData) : List ℚ :=
  [pd.age.getD 65, pd.bmi.getD 25, pd.family_history.getD 0,
   pd.blood_pressure.getD 120, pd.cholesterol.getD 200, pd.glucose.getD 100,
   pd.white_blood_cells.getD 7, pd.platelet_count.getD 250,
   pd.hemoglobin.getD 14, pd.symptom_count.getD 3, pd.fatigue_level.getD 3,
   pd.pain_level.getD 3, pd.weight_loss.getD 0, pd.night_sweats.getD 0,
   pd.appetite_loss.getD 0]

/-- The encoder/scaler objects fitted once per call (lines 101-115):
`le_gender.fit`, `le_smoking.fit`, `scaler.fit`. -/
structure FittedState where
  genderClasses : List String
  smokingClasses : List String
  scalerParams : List (ℚ × ℚ)
  deriving Repr

/-- One row of the feature matrix `X`: the 15 numeric columns followed by
`gender_encoded` and `smoking_encoded` (lines 92-106). -/
def featureRow (p : Patient) (gcode scode : Nat) : List ℚ :=
  [p.age, p.bmi, p.family_history, p.blood_pressure, p.cholesterol, p.glucose,
   p.white_blood_cells, p.platelet_count, p.hemoglobin, p.symptom_count,
   p.fatigue_level, p.pain_level, p.weight_loss, p.night_sweats,
   p.appetite_loss, (gcode : ℚ), (scode : ℚ)]

/-- The feature matrix `X` with the categorical codes produced by
`fit_transform` on the table's own columns (lines 97-106). -/
def trainingMatrix (table : List Patient) : List (List ℚ) :=
  let gclasses := le_fit (table.map (fun p => p.gender))
  let sclasses := le_fit (table.map (fun p => p.smoking_status))
  table.map (fun p =>
    featureRow p (gclasses.indexOf p.gender) (sclasses.indexOf p.smoking_status))

/-- `X` paired with `y = df['cancer_type']` for the split (lines 97-111). -/
def labeledTrainingRows (table : List Patient) : List (List ℚ × String) :=
  (trainingMatrix table).zip (table.map assignLabel)

/-- Lines 101-115: fit the two label encoders on the full table's columns and
the scaler on `X_train` (the split's training part).  This is the single fit
of the call; everything downstream reuses this state. -/
def fitEncoders (sqrtQ : ℚ → ℚ)
    (split : List (List ℚ × String) → List (List ℚ × String))
    (table : List Patient) : FittedState :=
  ⟨le_fit (table.map (fun p => p.gender)),
   le_fit (table.map (fun p => p.smoking_status)),
   scaler_fit sqrtQ ((split (labeledTrainingRows table)).map (fun r => r.1))⟩

/-- Lines 151-155: the patient's gender code — `le_gender.transform` if the
key is present, else the literal `0` (the first category's code). -/
def genderCode (st : FittedState) (pd : PatientData) : Except String Nat :=
  match pd.gender with
  | some v => le_transform st.genderClasses v
  | none => .ok 0

/-- Lines 157-160: the patient's smoking code. -/
def smokingCode (st : FittedState) (pd : PatientData) : Except String Nat :=
  match pd.smoking_status with
  | some v => le_transform st.smokingClasses v
  | none => .ok 0

/-- Lines 134-166: build the patient feature vector and scale it with the
fitted scaler; an unseen categorical value aborts with the encoder's error. -/
def encodePatientRow (st : FittedState) (pd : PatientData) : Except String (List ℚ) :=
  match genderCode st pd with
  | .error e => .error e
  | .ok gc =>
    match smokingCode st pd with
    | .error e => .error e
    | .ok sc =>
      .ok (scaler_transform st.scalerParams
        (buildNumericFeatures pd ++ [(gc : ℚ), (sc : ℚ)]))

/-- The dict returned by `predict_cancer_type` (lines 182-188), restricted to
the prediction fields (the printed `model_accuracy` and the derived
`top_3_predictions` prefix are omitted). -/
structure PredResult where
  predicted_cancer_type : String
  confidence_score : ℚ
  all_probabilities : List (String × ℚ)
  deriving DecidableEq, Repr

/-- Lines 87-188 of `predict_cancer_type` after the table is generated: fit
the encoders and scaler once, encode and scale the patient row with exactly
that fitted state, and build the result from the forest's probability vector.
`proba` abstracts the fitted forest (`random_state=42`), taking the scaled
training matrix, training labels and scaled patient row; the forest's
`classes_` is the sorted distinct training labels, its `predict` is the class
at the first argmax of `predict_proba`, and the confidence is
`max(probabilities)` (line 173). -/
def runPredict (sqrtQ : ℚ → ℚ)
    (split : List (List ℚ × String) → List (List ℚ × String))
    (proba : List (List ℚ) → List String → List ℚ → List ℚ)
    (table : List Patient) (pd : PatientData) : Except String PredResult :=
  let st := fitEncoders sqrtQ split table
  match encodePatientRow st pd with
  | .error e => .error e
  | .ok scaled =>
    let trainPairs := split (labeledTrainingRows table)
    let xtr := trainPairs.map (fun r => scaler_transform st.scalerParams r.1)
    let ytr := trainPairs.map (fun r => r.2)
    let classes := le_fit ytr
    let ps := proba xtr ytr scaled
    .ok ⟨(classes.get? (argmaxIdx ps)).getD "", listMax ps, classes.zip ps⟩

/-- A full call of `predict_cancer_type` as a transition on the process-wide
numpy RNG state (a `Nat`): line 36 executes `np.random.seed(42)`, discarding
the incoming state, and the table is drawn from the reseeded stream with
`n_samples=1000` (line 89).  `genTable seed n` abstracts the column draws,
`genNext seed n` the RNG state they leave behind. -/
def predictCall (genTable : Nat → Nat → List Patient) (genNext : Nat → Nat → Nat)
    (sqrtQ : ℚ → ℚ)
    (split : List (List ℚ × String) → List (List ℚ × String))
    (proba : List (List ℚ) → List String → List ℚ → List ℚ)
    (_rng : Nat) (pd : PatientData) : Except String PredResult × Nat :=
  (runPredict sqrtQ split proba (genTable 42 1000) pd, genNext 42 1000)

/-! ### Claims about the encoding pipeline -/

/-- C1: the encoders and scaler are fitted exactly once (`fitEncoders`), and
inside the same prediction call: (1) every training row's categorical value
transforms, under the fitted encoder, to exactly the integer code the
training matrix gave it; (2) the inference row is encoded with those same
fitted classes and scaled with the same fitted scaler parameters; (3) the
training matrix's codes are indices into the once-fitted classes — no second
fit occurs between training and inference. -/
theorem encoder_fit_once_symmetry (sqrtQ : ℚ → ℚ)
    (split : List (List ℚ × String) → List (List ℚ × String))
    (table : List Patient) (pd : PatientData) (g m : String)
    (hg : pd.gender = some g) (hm : pd.smoking_status = some m)
    (hgm : g ∈ table.map (fun p => p.gender))
    (hmm : m ∈ table.map (fun p => p.smoking_status)) :
    (∀ p ∈ table,
        le_transform (fitEncoders sqrtQ split table).genderClasses p.gender
          = .ok ((fitEncoders sqrtQ split table).genderClasses.indexOf p.gender)
      ∧ le_transform (fitEncoders sqrtQ split table).smokingClasses p.smoking_status
          = .ok ((fitEncoders sqrtQ split table).smokingClasses.indexOf p.smoking_status))
    ∧ encodePatientRow (fitEncoders sqrtQ split table) pd
        = .ok (scaler_transform (fitEncoders sqrtQ split table).scalerParams
            (buildNumericFeatures pd
              ++ [(((fitEncoders sqrtQ split table).genderClasses.indexOf g : Nat) : ℚ),
                  (((fitEncoders sqrtQ split table).smokingClasses.indexOf m : Nat) : ℚ)]))
    ∧ trainingMatrix table
        = table.map (fun p => featureRow p
            ((fitEncoders sqrtQ split table).genderClasses.indexOf p.gender)
            ((fitEncoders sqrtQ split table).smokingClasses.indexOf p.smoking_status)) := by
  have hgc : g ∈ le_fit (table.map (fun p => p.gender)) := (mem_le_fit _ _).2 hgm
  have hmc : m ∈ le_fit (table.map (fun p => p.smoking_status)) := (mem_le_fit _ _).2 hmm
  refine ⟨?_, ?_, rfl⟩
  · intro p hp
    have hg1 : p.gender ∈ le_fit (table.map (fun p => p.gender)) :=
      (mem_le_fit _ _).2 (List.mem_map_of_mem _ hp)
    have hs1 : p.smoking_status ∈ le_fit (table.map (fun p => p.smoking_status)) :=
      (mem_le_fit _ _).2 (List.mem_map_of_mem _ hp)
    exact ⟨le_transform_of_mem hg1, le_transform_of_mem hs1⟩
  · simp only [encodePatientRow, genderCode, smokingCode, hg, hm, fitEncoders]
    rw [le_transform_of_mem hgc, le_transform_of_mem hmc]

/-- A small two-row training table used for concrete evaluations. -/
def wtable : List Patient :=
  [⟨55, "Male", 24, "Never", 0, 118, 190, 95, 6, 240, 15, 2, 1, 1, 0, 0, 0⟩,
   ⟨48, "Female", 27, "Current", 1, 130, 210, 105, 8, 260, 13, 3, 2, 2, 0, 0, 0⟩]

/-- A fully populated patient request whose categorical values occur in
`wtable`. -/
def wpd : PatientData :=
  ⟨some 60, some 26, some 1, some 125, some 205, some 98, some 7, some 255,
   some 14, some 3, some 2, some 2, some 0, some 0, some 0,
   some "Female", some "Never"⟩

/-- Witness for C1 at a concrete table and request. -/
theorem encoder_fit_once_symmetry_witness :
    encodePatientRow (fitEncoders id id wtable) wpd
      = .ok (scaler_transform (fitEncoders id id wtable).scalerParams
          (buildNumericFeatures wpd
            ++ [(((fitEncoders id id wtable).genderClasses.indexOf "Female" : Nat) : ℚ),
                (((fitEncoders id id wtable).smokingClasses.indexOf "Never" : Nat) : ℚ)])) :=
  (encoder_fit_once_symmetry id id wtable wpd "Female" "Never" rfl rfl
    (by decide) (by decide)).2.1

/-- The gender code (line 153's transform) either succeeds or fails with the
`UnknownCategory` error — those are its only outcomes. -/
theorem genderCode_cases (st : FittedState) (pd : PatientData) :
    (∃ n, genderCode st pd = .ok n) ∨ genderCode st pd = .error "UnknownCategory" := by
  cases hpg : pd.gender with
  | none => exact Or.inl ⟨0, by simp [genderCode, hpg]⟩
  | some v =>
    simp only [genderCode, hpg, le_transform]
    split_ifs
    · exact Or.inl ⟨_, rfl⟩
    · exact Or.inr rfl

/-- An unseen gender value (line 153) makes the encode step fail. -/
theorem encodePatientRow_gender_unseen {st : FittedState} {pd : PatientData}
    {g : String} (hg : pd.gender = some g) (h : g ∉ st.genderClasses) :
    encodePatientRow st pd = .error "UnknownCategory" := by
  simp [encodePatientRow, genderCode, hg, le_transform_of_not_mem h]

/-- An unseen smoking_status value (line 158) makes the encode step fail,
whatever the gender column held: if the gender transform already failed it
failed with the same `UnknownCategory` error. -/
theorem encodePatientRow_smoking_unseen {st : FittedState} {pd : PatientData}
    {m : String} (hm : pd.smoking_status = some m) (h : m ∉ st.smokingClasses) :
    encodePatientRow st pd = .error "UnknownCategory" := by
  rcases genderCode_cases st pd with ⟨n, hn⟩ | hn
  · simp [encodePatientRow, hn, smokingCode, hm, le_transform_of_not_mem h]
  · simp [encodePatientRow, hn]

/-- A failure of the encode step is the result of the whole call. -/
theorem runPredict_error (sqrtQ : ℚ → ℚ)
    (split : List (List ℚ × String) → List (List ℚ × String))
    (proba : List (List ℚ) → List String → List ℚ → List ℚ)
    (table : List Patient) (pd : PatientData) {e : String}
    (h : encodePatientRow (fitEncoders sqrtQ split table) pd = .error e) :
    runPredict sqrtQ split proba table pd = .error e := by
  simp [runPredict, h]

/-- C5: a categorical value not observed during the encoder fit — in the
gender column (line 153) or in the smoking_status column (line 158) — makes
the encoding step fail with the `UnknownCategory` error and the whole
prediction call abort with that error instead of returning a result. -/
theorem unseen_category_aborts_prediction (sqrtQ : ℚ → ℚ)
    (split : List (List ℚ × String) → List (List ℚ × String))
    (proba : List (List ℚ) → List String → List ℚ → List ℚ)
    (table : List Patient) (pd : PatientData) :
    (∀ g, pd.gender = some g → g ∉ table.map (fun p => p.gender) →
        runPredict sqrtQ split proba table pd = .error "UnknownCategory")
    ∧ (∀ m, pd.smoking_status = some m → m ∉ table.map (fun p => p.smoking_status) →
        runPredict sqrtQ split proba table pd = .error "UnknownCategory") := by
  constructor
  · intro g hg hnot
    have h1 : g ∉ (fitEncoders sqrtQ split table).genderClasses :=
      fun hc => hnot ((mem_le_fit _ _).1 hc)
    exact runPredict_error sqrtQ split proba table pd
      (encodePatientRow_gender_unseen hg h1)
  · intro m hm hnot
    have h1 : m ∉ (fitEncoders sqrtQ split table).smokingClasses :=
      fun hc => hnot ((mem_le_fit _ _).1 hc)
    exact runPredict_error sqrtQ split proba table pd
      (encodePatientRow_smoking_unseen hm h1)

/-- A request whose gender value does not occur in `wtable`. -/
def wpdUnseen : PatientData :=
  ⟨some 60, some 26, some 1, some 125, some 205, some 98, some 7, some 255,
   some 14, some 3, some 2, some 2, some 0, some 0, some 0,
   some "Other", some "Never"⟩

/-- A request with a seen gender but a smoking_status value that does not
occur in `wtable`. -/
def wpdUnseenSmoking : PatientData :=
  ⟨some 60, some 26, some 1, some 125, some 205, some 98, some 7, some 255,
   some 14, some 3, some 2, some 2, some 0, some 0, some 0,
   some "Female", some "Occasional"⟩

/-- Witness for C5 at a concrete table, for both categorical columns. -/
theorem unseen_category_witness :
    runPredict id id (fun _ _ _ => []) wtable wpdUnseen = .error "UnknownCategory"
    ∧ runPredict id id (fun _ _ _ => []) wtable wpdUnseenSmoking = .error "UnknownCategory" :=
  ⟨(unseen_category_aborts_prediction id id (fun _ _ _ => []) wtable wpdUnseen).1
      "Other" rfl (by decide),
   (unseen_category_aborts_prediction id id (fun _ _ _ => []) wtable wpdUnseenSmoking).2
      "Occasional" rfl (by decide)⟩

/-- C6: missing numeric columns are filled with the documented defaults
(age 65, bmi 25, blood_pressure 120, symptom_count 3, …), a missing
categorical column is filled with code `0`, which is exactly the code of the
encoder's first known category, and the completed row is scaled with the
fitted transform. -/
theorem missing_columns_filled_with_defaults (sqrtQ : ℚ → ℚ)
    (split : List (List ℚ × String) → List (List ℚ × String))
    (table : List Patient) (pd : PatientData)
    (hg : pd.gender = none) (hm : pd.smoking_status = none) :
    buildNumericFeatures emptyPatient
        = [65, 25, 0, 120, 200, 100, 7, 250, 14, 3, 3, 3, 0, 0, 0]
    ∧ encodePatientRow (fitEncoders sqrtQ split table) pd
        = .ok (scaler_transform (fitEncoders sqrtQ split table).scalerParams
            (buildNumericFeatures pd ++ [(0 : ℚ), (0 : ℚ)]))
    ∧ (∀ c cs, (fitEncoders sqrtQ split table).genderClasses = c :: cs →
        le_transform (fitEncoders sqrtQ split table).genderClasses c = .ok 0)
    ∧ (∀ c cs, (fitEncoders sqrtQ split table).smokingClasses = c :: cs →
        le_transform (fitEncoders sqrtQ split table).smokingClasses c = .ok 0) := by
  refine ⟨by decide, ?_, ?_, ?_⟩
  · simp [encodePatientRow, genderCode, smokingCode, hg, hm]
  · intro c cs h
    rw [h]
    exact le_transform_head c cs
  · intro c cs h
    rw [h]
    exact le_transform_head c cs

/-- Witness for C6 at a concrete table and the fully missing request. -/
theorem missing_columns_witness :
    encodePatientRow (fitEncoders id id wtable) emptyPatient
      = .ok (scaler_transform (fitEncoders id id wtable).scalerParams
          (buildNumericFeatures emptyPatient ++ [(0 : ℚ), (0 : ℚ)])) :=
  (missing_columns_filled_with_defaults id id wtable emptyPatient rfl rfl).2.1

/-- C7: because each call reseeds the global RNG with 42 before drawing the
N = 1000 table, and the split and the forest carry their own fixed
`random_state=42`, a prediction call's result does not depend on the incoming
process RNG state; in particular, two consecutive runs in the same process —
the second starting from the state the first left behind — return the same
result (same label, same confidence, same distribution). -/
theorem repeated_runs_deterministic
    (genTable : Nat → Nat → List Patient) (genNext : Nat → Nat → Nat)
    (sqrtQ : ℚ → ℚ)
    (split : List (List ℚ × String) → List (List ℚ × String))
    (proba : List (List ℚ) → List String → List ℚ → List ℚ)
    (pd : PatientData) (rng rab : Nat) :
    (predictCall genTable genNext sqrtQ split proba rng pd).1
      = (predictCall genTable genNext sqrtQ split proba rab pd).1
    ∧ (predictCall genTable genNext sqrtQ split proba
        ((predictCall genTable genNext sqrtQ split proba rng pd).2) pd).1
      = (predictCall genTable genNext sqrtQ split proba rng pd).1 :=
  ⟨rfl, rfl⟩

/-! ### Fallback doctor-explanation generator
(`doctor_explanation_fallback.py`).  The fixed surrounding template prose of
each section carries no branching, so a section is modelled by the data the
template interpolates (name, numbers, selected prose blocks and lists); the
branching logic — the cancer-information lookup with its `Lung` default, the
confidence bands, the risk-factor and symptom line selection — is embedded
in full. -/

/-- One entry of the `cancer_info` dictionary. -/
structure CancerInfo where
  description : String
  risk_factors : List String
  symptoms : List String
  tests : List String
  specialists : List String
  deriving DecidableEq, Repr

/-- The `Lung` entry (also the fallback default of line 71). -/
def lungInfo : CancerInfo :=
  ⟨"Lung cancer is a type of cancer that begins in the lungs and can spread to other parts of the body.",
   ["smoking", "age over 65", "family history", "exposure to radon or asbestos"],
   ["persistent cough", "chest pain", "shortness of breath", "weight loss", "fatigue"],
   ["chest X-ray", "CT scan", "biopsy", "PET scan"],
   ["pulmonologist", "oncologist"]⟩

/-- The `Breast` entry. -/
def breastInfo : CancerInfo :=
  ⟨"Breast cancer occurs when cells in breast tissue grow uncontrollably.",
   ["age", "family history", "genetic mutations (BRCA1/BRCA2)", "hormone exposure"],
   ["breast lump", "breast pain", "skin changes", "nipple discharge"],
   ["mammography", "breast ultrasound", "biopsy", "MRI"],
   ["breast surgeon", "oncologist"]⟩

/-- The `Colorectal` entry (note the key: `Colorectal`, not `Colon`). -/
def colorectalInfo : CancerInfo :=
  ⟨"Colorectal cancer begins in the colon or rectum and is often preventable with screening.",
   ["age over 50", "family history", "inflammatory bowel disease", "diet high in red meat"],
   ["changes in bowel habits", "blood in stool", "abdominal pain", "weight loss"],
   ["colonoscopy", "CT scan", "blood tests (CEA)", "biopsy"],
   ["gastroenterologist", "colorectal surgeon", "oncologist"]⟩

/-- The `Prostate` entry. -/
def prostateInfo : CancerInfo :=
  ⟨"Prostate cancer develops in the prostate gland and is common in older men.",
   ["age over 65", "family history", "race (higher in African Americans)", "diet"],
   ["difficulty urinating", "blood in urine", "pelvic pain", "erectile dysfunction"],
   ["PSA blood test", "digital rectal exam", "biopsy", "MRI"],
   ["urologist", "oncologist"]⟩

/-- The `Pancreatic` entry. -/
def pancreaticInfo : CancerInfo :=
  ⟨"Pancreatic cancer is a serious form of cancer that develops in the pancreas.",
   ["smoking", "diabetes", "family history", "chronic pancreatitis"],
   ["abdominal pain", "weight loss", "jaundice", "new-onset diabetes"],
   ["CT scan", "MRI", "endoscopic ultrasound", "biopsy"],
   ["gastroenterologist", "oncologist", "pancreatic surgeon"]⟩

/-- The `Melanoma` entry. -/
def melanomaInfo : CancerInfo :=
  ⟨"Melanoma is the most serious type of skin cancer that develops in melanocytes.",
   ["UV exposure", "fair skin", "family history", "multiple moles"],
   ["changing moles", "new skin growths", "asymmetrical spots", "irregular borders"],
   ["skin biopsy", "dermoscopy", "sentinel lymph node biopsy", "imaging studies"],
   ["dermatologist", "oncologist"]⟩

/-- The `self.cancer_info` dictionary (lines 12-55), in source order. -/
def cancer_info : List (String × CancerInfo) :=
  [("Lung", lungInfo), ("Breast", breastInfo), ("Colorectal", colorectalInfo),
   ("Prostate", prostateInfo), ("Pancreatic", pancreaticInfo),
   ("Melanoma", melanomaInfo)]

/-- `self.cancer_info.get(key)` without default. -/
def lookupInfo (k : String) : Option CancerInfo :=
  (cancer_info.find? (fun e => e.1 == k)).map (fun e => e.2)

/-- Line 71: `self.cancer_info.get(predicted_cancer_type,
self.cancer_info['Lung'])`. -/
def selectCancerInfo (k : String) : CancerInfo :=
  (lookupInfo k).getD lungInfo

/-- The symptom flags handed to the generator (ints, 0 = absent). -/
structure Symptoms where
  fatigue_level : Int
  pain_level : Int
  weight_loss : Int
  night_sweats : Int
  appetite_loss : Int
  symptom_count : Int
  deriving DecidableEq, Repr

/-- The medical attributes handed to the generator. -/
structure MedicalData where
  bmi : ℚ
  smoking_status : String
  family_history : Int
  blood_pressure : ℚ
  cholesterol : ℚ
  glucose : ℚ
  deriving DecidableEq, Repr

/-- `_get_confidence_text` (lines 229-238). -/
def getConfidenceText (confidence : ℚ) : String :=
  if 8/10 ≤ confidence then
    "This represents a high-confidence prediction with multiple risk factors present."
  else if 6/10 ≤ confidence then
    "This represents a moderate-confidence prediction with several indicators present."
  else if 4/10 ≤ confidence then
    "This represents a low-to-moderate confidence prediction with some risk factors identified."
  else
    "This represents a low-confidence prediction with minimal risk factors present."

/-- `_interpret_confidence` (lines 240-251): the bands 0.9, 0.7, 0.5, 0.3
checked in that order. -/
def interpretConfidence (confidence : ℚ) : String :=
  if 9/10 ≤ confidence then "Very high confidence - multiple strong indicators present"
  else if 7/10 ≤ confidence then "High confidence - several risk factors align"
  else if 1/2 ≤ confidence then "Moderate confidence - some indicators present"
  else if 3/10 ≤ confidence then "Low confidence - limited indicators"
  else "Very low confidence - minimal risk factors"

/-- `_identify_risk_factors` (lines 175-196), list of selected lines (the
fallback path always passes a non-empty `medical_data` dict, so its truthy
test holds). -/
def identifyRiskFactors (age : Int) (medical : MedicalData) : List String :=
  (if age > 65 then ["- Advanced age (increased risk)"]
   else if age > 50 then ["- Age over 50 (moderate risk factor)"] else [])
  ++ (if medical.smoking_status = "Current" then
        ["- Current smoking (significant risk factor)"]
      else if medical.smoking_status = "Former" then
        ["- Former smoking history (elevated risk)"] else [])
  ++ (if medical.family_history ≠ 0 then
        ["- Family history of cancer (genetic predisposition)"] else [])
  ++ (if medical.bmi > 30 then ["- Obesity (BMI > 30, increased risk)"] else [])

/-- Line 196: the joined risk-factor lines, with the no-factor fallback. -/
def riskFactorLines (age : Int) (medical : MedicalData) : List String :=
  let rf := identifyRiskFactors age medical
  if rf = [] then ["- No major risk factors identified"] else rf

/-- `_analyze_symptoms` (lines 198-227), list of selected lines. -/
def analyzeSymptoms (s : Symptoms) : List String :=
  (if s.fatigue_level > 3 then
     ["- Significant fatigue (level " ++ toString s.fatigue_level ++ "/5) - concerning symptom"]
   else if s.fatigue_level > 2 then
     ["- Moderate fatigue (level " ++ toString s.fatigue_level ++ "/5) - worth monitoring"]
   else [])
  ++ (if s.pain_level > 3 then
        ["- Significant pain (level " ++ toString s.pain_level ++ "/5) - requires evaluation"]
      else if s.pain_level > 2 then
        ["- Moderate pain (level " ++ toString s.pain_level ++ "/5) - should be assessed"]
      else [])
  ++ (if s.weight_loss ≠ 0 then
        ["- Unexplained weight loss - important warning sign"] else [])
  ++ (if s.night_sweats ≠ 0 then
        ["- Night sweats - can indicate systemic illness"] else [])
  ++ (if s.appetite_loss ≠ 0 then
        ["- Loss of appetite - concerning symptom"] else [])
  ++ (if s.symptom_count > 3 then
        ["- Multiple symptoms present (" ++ toString s.symptom_count ++ ") - comprehensive evaluation needed"]
      else [])

/-- Line 227: the joined symptom lines, with the minimal-symptoms fallback. -/
def symptomLines (s : Symptoms) : List String :=
  let l := analyzeSymptoms s
  if l = [] then ["- Minimal symptoms reported - good prognostic sign"] else l

/-- The data `_generate_explanation` interpolates into its fixed template
(lines 95-118). -/
structure ExplanationSection where
  patient_name : String
  confidence : ℚ
  cancer_type : String
  confidence_text : String
  description : String
  age : Int
  gender : String
  risk_factor_lines : List String
  symptom_lines : List String
  deriving DecidableEq, Repr

/-- The data `_generate_recommendations` interpolates (lines 120-148): the
per-test bullet lines come from the selected entry's `tests`. -/
structure RecommendationsSection where
  tests : List String
  deriving DecidableEq, Repr

/-- The data `_generate_next_steps` interpolates (lines 150-173): the
comma-joined specialists of the selected entry. -/
structure NextStepsSection where
  specialists_list : String
  deriving DecidableEq, Repr

/-- The dict returned by `generate_doctor_explanation` (lines 87-93); the
`full_response` field is the concatenation of the first three sections and
is not modelled separately. -/
structure DoctorExplanation where
  explanation : ExplanationSection
  recommendations : RecommendationsSection
  next_steps : NextStepsSection
  confidence_interpretation : String
  deriving DecidableEq, Repr

/-- `generate_doctor_explanation` (lines 57-93): select the cancer entry by
exact key with the `Lung` default, then fill the three sections and the
confidence interpretation. -/
def generate_doctor_explanation (patient_name : String) (age : Int)
    (gender : String) (predicted_cancer_type : String) (confidence_score : ℚ)
    (symptoms : Symptoms) (medical_data : MedicalData) : DoctorExplanation :=
  let info := selectCancerInfo predicted_cancer_type
  ⟨⟨patient_name, confidence_score, predicted_cancer_type,
    getConfidenceText confidence_score, info.description, age, gender,
    riskFactorLines age medical_data, symptomLines symptoms⟩,
   ⟨info.tests⟩,
   ⟨String.intercalate ", " info.specialists⟩,
   interpretConfidence confidence_score⟩

/-! ### Claims about the explanation formatter -/

/-- C8: the formatter is a deterministic lookup: the cancer entry is chosen
by exact key with the `Lung` default for unknown keys, the confidence
interpretation follows the bands ≥ 0.9, ≥ 0.7, ≥ 0.5, ≥ 0.3, else, in that
order, and the result always carries the explanation, recommendations and
next-steps sections built from the selected entry. -/
theorem explanation_formatter_deterministic_lookup
    (c : ℚ) (t pname pgender : String) (page : Int)
    (symptoms : Symptoms) (medical : MedicalData) :
    (9/10 ≤ c → interpretConfidence c = "Very high confidence - multiple strong indicators present")
    ∧ (7/10 ≤ c → c < 9/10 → interpretConfidence c = "High confidence - several risk factors align")
    ∧ (1/2 ≤ c → c < 7/10 → interpretConfidence c = "Moderate confidence - some indicators present")
    ∧ (3/10 ≤ c → c < 1/2 → interpretConfidence c = "Low confidence - limited indicators")
    ∧ (c < 3/10 → interpretConfidence c = "Very low confidence - minimal risk factors")
    ∧ (∀ info, lookupInfo t = some info → selectCancerInfo t = info)
    ∧ (lookupInfo t = none → selectCancerInfo t = lungInfo)
    ∧ (generate_doctor_explanation pname page pgender t c symptoms medical).explanation.description
        = (selectCancerInfo t).description
    ∧ (generate_doctor_explanation pname page pgender t c symptoms medical).recommendations.tests
        = (selectCancerInfo t).tests
    ∧ (generate_doctor_explanation pname page pgender t c symptoms medical).next_steps.specialists_list
        = String.intercalate ", " (selectCancerInfo t).specialists
    ∧ (generate_doctor_explanation pname page pgender t c symptoms medical).confidence_interpretation
        = interpretConfidence c := by
  refine ⟨?_, ?_, ?_, ?_, ?_, ?_, ?_, rfl, rfl, rfl, rfl⟩
  · intro h1
    rw [interpretConfidence, if_pos h1]
  · intro h1 h2
    rw [interpretConfidence, if_neg (not_le.mpr h2), if_pos h1]
  · intro h1 h2
    rw [interpretConfidence,
      if_neg (not_le.mpr (lt_trans h2 (show (7 : ℚ)/10 < 9/10 by norm_num))),
      if_neg (not_le.mpr h2), if_pos h1]
  · intro h1 h2
    rw [interpretConfidence,
      if_neg (not_le.mpr (lt_trans h2 (show (1 : ℚ)/2 < 9/10 by norm_num))),
      if_neg (not_le.mpr (lt_trans h2 (show (1 : ℚ)/2 < 7/10 by norm_num))),
      if_neg (not_le.mpr h2), if_pos h1]
  · intro h1
    rw [interpretConfidence,
      if_neg (not_le.mpr (lt_trans h1 (show (3 : ℚ)/10 < 9/10 by norm_num))),
      if_neg (not_le.mpr (lt_trans h1 (show (3 : ℚ)/10 < 7/10 by norm_num))),
      if_neg (not_le.mpr (lt_trans h1 (show (3 : ℚ)/10 < 1/2 by norm_num))),
      if_neg (not_le.mpr h1)]
  · intro info h
    simp [selectCancerInfo, h]
  · intro h
    simp [selectCancerInfo, h]

/-- A concrete symptom record. -/
def wSymptoms : Symptoms := ⟨4, 3, 1, 0, 1, 4⟩

/-- A concrete medical record. -/
def wMedical : MedicalData := ⟨28, "Former", 1, 135, 220, 105⟩

/-- Witness for C8 at confidence 0.75 and the unknown key `Colon`. -/
theorem explanation_formatter_witness :
    interpretConfidence (3/4) = "High confidence - several risk factors align"
    ∧ selectCancerInfo "Colon" = lungInfo
    ∧ (generate_doctor_explanation "Patient" 60 "Male" "Colon" (3/4) wSymptoms wMedical).confidence_interpretation
        = interpretConfidence (3/4) :=
  ⟨(explanation_formatter_deterministic_lookup (3/4) "Colon" "Patient" "Male" 60
      wSymptoms wMedical).2.1 (by norm_num) (by norm_num),
   (explanation_formatter_deterministic_lookup (3/4) "Colon" "Patient" "Male" 60
      wSymptoms wMedical).2.2.2.2.2.2.1 (by decide),
   (explanation_formatter_deterministic_lookup (3/4) "Colon" "Patient" "Male" 60
      wSymptoms wMedical).2.2.2.2.2.2.2.2.2.2⟩

/-- A row the simple cascade labels `Colon`: Male, 75, never-smoker, family
history. -/
def rowColon : Patient :=
  ⟨75, "Male", 25, "Never", 1, 120, 200, 100, 7, 250, 14, 2, 1, 1, 0, 0, 0⟩

/-- A row the simple cascade labels `Leukemia`: 5 symptoms, fatigue 4. -/
def rowLeukemia : Patient :=
  ⟨30, "Male", 25, "Never", 0, 120, 200, 100, 7, 250, 14, 5, 4, 1, 0, 0, 0⟩

/-- C9: the cascade really assigns `Colon`, `Ovarian` and `Leukemia`, but the
explanation table has no entries under those keys (it has `Colorectal`, not
`Colon`), so each of the three falls back to the `Lung` entry, whose
description, tests and specialists end up in the explanation. -/
theorem missing_info_keys_get_lung_template :
    assignLabel rowColon = "Colon" ∧ assignLabel rowOvarian = "Ovarian"
    ∧ assignLabel rowLeukemia = "Leukemia"
    ∧ lookupInfo "Colon" = none ∧ lookupInfo "Ovarian" = none
    ∧ lookupInfo "Leukemia" = none
    ∧ lookupInfo "Colorectal" = some colorectalInfo
    ∧ selectCancerInfo "Colon" = lungInfo
    ∧ selectCancerInfo "Ovarian" = lungInfo
    ∧ selectCancerInfo "Leukemia" = lungInfo
    ∧ (generate_doctor_explanation "Patient" 72 "Male" "Colon" (1/2) wSymptoms wMedical).explanation.description
        = lungInfo.description
    ∧ (generate_doctor_explanation "Patient" 72 "Male" "Colon" (1/2) wSymptoms wMedical).recommendations.tests
        = lungInfo.tests
    ∧ (generate_doctor_explanation "Patient" 72 "Male" "Colon" (1/2) wSymptoms wMedical).next_steps.specialists_list
        = String.intercalate ", " lungInfo.specialists := by
  refine ⟨by decide, by decide, by decide, by decide, by decide, by decide,
    by decide, by decide, by decide, by decide, rfl, rfl, rfl⟩

/-! ### The confidence computation of `CancerPredictor.predict_cancer`
(`cancer_prediction.py` lines 175-189).  The model's class order
(`model.classes_`, the sorted distinct training labels, which is the order
of the `predict_proba` vector) and `self.cancer_types` (line 90,
`y.unique().tolist()`, the labels in order of first appearance) are both
passed explicitly; line 179 zips `self.cancer_types` with the probability
vector and line 186 reads the predicted label's entry of that zip. -/

/-- Line 175: `model.predict(patient_scaled)[0]`, the class at the first
argmax of the probability vector. -/
def cp_predicted (classes : List String) (ps : List ℚ) : String :=
  (classes.get? (argmaxIdx ps)).getD ""

/-- Line 179: `prob_dict = dict(zip(self.cancer_types, probabilities))`. -/
def cp_prob_dict (ctypes : List String) (ps : List ℚ) : List (String × ℚ) :=
  ctypes.zip ps

/-- Line 186: `prob_dict[predicted_cancer]` (`none` models the `KeyError`
when the label is absent from the dict). -/
def cp_confidence (ctypes classes : List String) (ps : List ℚ) : Option ℚ :=
  ((cp_prob_dict ctypes ps).find? (fun kv => kv.1 == cp_predicted classes ps)).map
    (fun kv => kv.2)

/-- Lines 175-189: `(predicted, confidence, all_probabilities)` as built by
`predict_cancer`. -/
def cp_predict_result (ctypes classes : List String) (ps : List ℚ) :
    String × Option ℚ × List (String × ℚ) :=
  (cp_predicted classes ps, cp_confidence ctypes classes ps, cp_prob_dict ctypes ps)

/-- C2, failing input: with appearance order `[Lung, Breast]`, sorted class
order `[Breast, Lung]` and probability vector `[0.3, 0.7]`, the predicted
label is `Lung` but the returned confidence is `0.3`, not the maximum entry
`0.7` of the returned distribution (which does sum to 1). -/
theorem cp_confidence_diverges_from_max :
    cp_predict_result ["Lung", "Breast"] ["Breast", "Lung"] [3/10, 7/10]
      = ("Lung", some (3/10), [("Lung", 3/10), ("Breast", 7/10)])
    ∧ listMax [3/10, 7/10] = 7/10
    ∧ qsum [3/10, 7/10] = 1
    ∧ (3/10 : ℚ) ≠ 7/10 := by
  have e1 : qmax ((3 : ℚ)/10) (3/10) = 3/10 := by
    rw [qmax]
    exact ite_self _
  have e2 : qmax ((3 : ℚ)/10) (7/10) = 7/10 := by
    rw [qmax, if_pos (show (3 : ℚ)/10 ≤ 7/10 by norm_num)]
  have hmax : listMax [(3 : ℚ)/10, 7/10] = 7/10 := by
    rw [show listMax [(3 : ℚ)/10, 7/10] = qmax (qmax ((3 : ℚ)/10) (3/10)) (7/10) from rfl,
      e1, e2]
  have hidx : argmaxIdx [(3 : ℚ)/10, 7/10] = 1 := by
    rw [argmaxIdx, hmax, idxOfQ, if_neg (show ¬((3 : ℚ)/10 = 7/10) by norm_num),
      idxOfQ, if_pos rfl]
  have hpred : cp_predicted ["Breast", "Lung"] [(3 : ℚ)/10, 7/10] = "Lung" := by
    rw [cp_predicted, hidx]
    rfl
  have hconf : cp_confidence ["Lung", "Breast"] ["Breast", "Lung"] [(3 : ℚ)/10, 7/10]
      = some (3/10) := by
    rw [cp_confidence]
    simp only [hpred]
    rfl
  refine ⟨?_, hmax, ?_, by norm_num⟩
  · rw [cp_predict_result, hpred, hconf]
    rfl
  · rw [qsum]
    simp only [List.foldl_cons, List.foldl_nil]
    norm_num

/-! ### Supporting facts: in `simple_cancer_predictor.predict_cancer_type`
(the path served by `api_server.py`) the confidence really is the maximum
entry of the returned distribution, so the divergence above is specific to
`CancerPredictor.predict_cancer`. -/

theorem foldl_add_eq (l : List ℚ) : ∀ acc : ℚ, l.foldl (· + ·) acc = acc + l.foldl (· + ·) 0 := by
  induction l with
  | nil =>
    intro acc
    simp
  | cons x t ih =>
    intro acc
    simp only [List.foldl_cons]
    rw [ih (acc + x), ih (0 + x)]
    ring

theorem qsum_cons (a : ℚ) (l : List ℚ) : qsum (a :: l) = a + qsum l := by
  rw [qsum, List.foldl_cons, foldl_add_eq, zero_add, qsum]

theorem qsum_nonneg {l : List ℚ} (h : ∀ y ∈ l, 0 ≤ y) : 0 ≤ qsum l := by
  induction l with
  | nil => simp [qsum, List.foldl_nil]
  | cons a t ih =>
    rw [qsum_cons]
    have ha := h a (List.mem_cons_self a t)
    have ht := ih (fun y hy => h y (List.mem_cons_of_mem a hy))
    linarith

theorem single_le_qsum {x : ℚ} {l : List ℚ} (hx : x ∈ l) (hnn : ∀ y ∈ l, 0 ≤ y) :
    x ≤ qsum l := by
  induction l with
  | nil => cases hx
  | cons a t ih =>
    rw [qsum_cons]
    have ht : ∀ y ∈ t, 0 ≤ y := fun y hy => hnn y (List.mem_cons_of_mem a hy)
    rcases List.mem_cons.1 hx with h | h
    · subst h
      have := qsum_nonneg ht
      linarith
    · have := ih h ht
      have := hnn a (List.mem_cons_self a t)
      linarith

theorem le_qmax_left (a b : ℚ) : a ≤ qmax a b := by
  rw [qmax]
  split_ifs with h
  · exact h
  · exact le_refl a

theorem le_qmax_right (a b : ℚ) : b ≤ qmax a b := by
  rw [qmax]
  split_ifs with h
  · exact le_refl b
  · exact le_of_not_le h

theorem qmax_choice (a b : ℚ) : qmax a b = a ∨ qmax a b = b := by
  rw [qmax]
  split_ifs
  · right
    rfl
  · left
    rfl

theorem foldl_qmax_mem (l : List ℚ) :
    ∀ acc : ℚ, l.foldl qmax acc = acc ∨ l.foldl qmax acc ∈ l := by
  induction l with
  | nil =>
    intro acc
    left
    rfl
  | cons x t ih =>
    intro acc
    rw [List.foldl_cons]
    rcases ih (qmax acc x) with h | h
    · rw [h]
      rcases qmax_choice acc x with h2 | h2
      · left
        exact h2
      · right
        rw [h2]
        exact List.mem_cons_self x t
    · right
      exact List.mem_cons_of_mem x h

theorem acc_le_foldl_qmax (l : List ℚ) : ∀ acc : ℚ, acc ≤ l.foldl qmax acc := by
  induction l with
  | nil =>
    intro acc
    exact le_refl acc
  | cons x t ih =>
    intro acc
    rw [List.foldl_cons]
    exact le_trans (le_qmax_left acc x) (ih (qmax acc x))

theorem mem_le_foldl_qmax (l : List ℚ) :
    ∀ (acc x : ℚ), x ∈ l → x ≤ l.foldl qmax acc := by
  induction l with
  | nil =>
    intro acc x hx
    cases hx
  | cons y t ih =>
    intro acc x hx
    rw [List.foldl_cons]
    rcases List.mem_cons.1 hx with h | h
    · subst h
      exact le_trans (le_qmax_right acc x) (acc_le_foldl_qmax t (qmax acc x))
    · exact ih (qmax acc y) x h

theorem listMax_mem {l : List ℚ} (h : l ≠ []) : listMax l ∈ l := by
  rw [listMax]
  rcases foldl_qmax_mem l (l.headD 0) with h2 | h2
  · rw [h2]
    cases l with
    | nil => exact absurd rfl h
    | cons a t => exact List.mem_cons_self a t
  · exact h2

theorem le_listMax {l : List ℚ} {x : ℚ} (hx : x ∈ l) : x ≤ listMax l :=
  mem_le_foldl_qmax l (l.headD 0) x hx

theorem map_snd_zip_eq (l1 : List String) (l2 : List ℚ) (h : l2.length ≤ l1.length) :
    (l1.zip l2).map Prod.snd = l2 := by
  induction l1 generalizing l2 with
  | nil =>
    cases l2 with
    | nil => rfl
    | cons b u => simp at h
  | cons a t ih =>
    cases l2 with
    | nil => rfl
    | cons b u =>
      simp only [List.zip_cons_cons, List.map_cons]
      rw [ih u (by simpa using h)]

/-- In the result of `predict_cancer_type` (the predictor the API serves),
the confidence score is the maximum entry of the returned distribution, lies
in `[0, 1]`, and the distribution sums to 1, whenever the forest's
probability vector is a probability vector of the right length (sklearn's
`predict_proba` contract). -/
theorem simple_predictor_confidence_is_max (sqrtQ : ℚ → ℚ)
    (split : List (List ℚ × String) → List (List ℚ × String))
    (proba : List (List ℚ) → List String → List ℚ → List ℚ)
    (table : List Patient) (pd : PatientData) (r : PredResult)
    (hok : runPredict sqrtQ split proba table pd = .ok r)
    (hlen : ∀ X y v, (proba X y v).length ≤ (le_fit y).length)
    (hne : ∀ X y v, proba X y v ≠ [])
    (hnn : ∀ X y v, ∀ x ∈ proba X y v, 0 ≤ x)
    (hsum : ∀ X y v, qsum (proba X y v) = 1) :
    0 ≤ r.confidence_score ∧ r.confidence_score ≤ 1
    ∧ r.confidence_score = listMax (r.all_probabilities.map Prod.snd)
    ∧ qsum (r.all_probabilities.map Prod.snd) = 1 := by
  rw [runPredict] at hok
  cases henc : encodePatientRow (fitEncoders sqrtQ split table) pd with
  | error e =>
    rw [henc] at hok
    cases hok
  | ok scaled =>
    rw [henc] at hok
    injection hok with hok
    subst hok
    have hzip := map_snd_zip_eq
      (le_fit ((split (labeledTrainingRows table)).map (fun r => r.2)))
      (proba ((split (labeledTrainingRows table)).map
          (fun r => scaler_transform (fitEncoders sqrtQ split table).scalerParams r.1))
        ((split (labeledTrainingRows table)).map (fun r => r.2)) scaled)
      (hlen _ _ _)
    simp only [hzip]
    have hm := listMax_mem (hne ((split (labeledTrainingRows table)).map
        (fun r => scaler_transform (fitEncoders sqrtQ split table).scalerParams r.1))
      ((split (labeledTrainingRows table)).map (fun r => r.2)) scaled)
    refine ⟨hnn _ _ _ _ hm, ?_, trivial, hsum _ _ _⟩
    calc listMax _ ≤ qsum _ := single_le_qsum hm (hnn _ _ _)
    _ = 1 := hsum _ _ _

end CancerBackend
